import Mathlib

/-!
Shallow embedding of the SCION control-plane message layer: the block-padding
primitive (`CalcPadding`/`FillPadding`), the sciond reply types
(`HostInfo`, `IFInfoReply`, the enum renderings), and the detached-signature
envelope (`SignS`, `SignedBlobS`).  Byte buffers (`common.RawBytes`) are
modelled as `List Nat`, Go `int` as `Int` (with Go's truncating `%` as
`Int.tmod`), and `uint16`/`uint64` as `Nat` with explicit `% 2 ^ w` where
overflow matters.  Methods that mutate their receiver return the post-state
explicitly.
-/

/-- Byte buffers (`common.RawBytes`). -/
abbrev RawBytes := List Nat

/-! ## Padding primitive (go/lib/util, `CalcPadding` / `FillPadding`) -/

/-- `CalcPadding(length, blkSize int) int`:
`spare := length % blkSize; if spare != 0 { return blkSize - spare }; return 0`.
Go's `%` truncates toward zero, which is `Int.tmod`. -/
def CalcPadding (length blkSize : Int) : Int :=
  let spare := Int.tmod length blkSize
  if spare ≠ 0 then blkSize - spare else 0

/-- The loop body of `FillPadding`: `for i := range b[length:total] { b[i] = 0 }`
iterates `i = 0, 1, ..., n-1` where `n` is the slice length, and each
iteration assigns `b[i] = 0` — indexing the ORIGINAL buffer `b`, not the
slice. -/
def zeroLoop (b : RawBytes) (n : Nat) : RawBytes :=
  (List.range n).foldl (fun acc i => acc.set i 0) b

/-- `FillPadding(b, length, blkSize)`: computes the padding, slices
`b[length:total]` (in-range only when `0 ≤ length ≤ total ≤ len(b)`;
otherwise Go panics, modelled as `none`), runs the zeroing loop over the
slice's index range, and returns the updated buffer with `total`. -/
def FillPadding (b : RawBytes) (length blkSize : Int) : Option (RawBytes × Int) :=
  let padding := CalcPadding length blkSize
  let total := length + padding
  if 0 ≤ length ∧ length ≤ total ∧ total ≤ (b.length : Int) then
    some (zeroLoop b (total - length).toNat, total)
  else
    none

/-! ## sciond types (go/lib/sciond/types.go) -/

/-- `addr.HostTypeNone` -/
def HostTypeNone : Nat := 0
/-- `addr.HostTypeIPv4` -/
def HostTypeIPv4 : Nat := 1
/-- `addr.HostTypeIPv6` -/
def HostTypeIPv6 : Nat := 2
/-- `addr.HostTypeSVC` -/
def HostTypeSVC : Nat := 3

/-- An `addr.HostAddr` as consumed by `HostInfoFromHostAddr`: an address
family tag (`Type()`) and raw address bytes (`IP()`). -/
structure HostAddr where
  typ : Nat
  ip : RawBytes
deriving DecidableEq

/-- `HostInfo`: port plus the two address slots `Addrs.Ipv4` / `Addrs.Ipv6`. -/
structure HostInfo where
  Port : Nat
  Ipv4 : RawBytes
  Ipv6 : RawBytes
deriving DecidableEq

/-- `HostInfoFromHostAddr(host, port)`: `h := &HostInfo{Port: port}` (both
slots nil); `if host.Type() == addr.HostTypeIPv4 { h.Addrs.Ipv4 = host.IP() }
else { h.Addrs.Ipv6 = host.IP() }; return h`.  Note the function returns
only `*HostInfo` — it has no error result. -/
def HostInfoFromHostAddr (host : HostAddr) (port : Nat) : HostInfo :=
  if host.typ = HostTypeIPv4 then
    { Port := port, Ipv4 := host.ip, Ipv6 := [] }
  else
    { Port := port, Ipv4 := [], Ipv6 := host.ip }

/-- `IFInfoReplyEntry`: interface id plus host info. -/
structure IFInfoReplyEntry where
  IfID : Nat
  hostInfo : HostInfo
deriving DecidableEq

/-- `IFInfoReply`: the ordered raw entry list. -/
structure IFInfoReply where
  RawEntries : List IFInfoReplyEntry
deriving DecidableEq

/-- `(reply *IFInfoReply) Entries()`: builds `m := make(map[uint64]HostInfo)`
and, iterating the entries in order, assigns `m[entry.IfID] = entry.HostInfo`;
the Go map is modelled as `Nat → Option HostInfo`, map assignment as
pointwise update. -/
def IFInfoReply.Entries (reply : IFInfoReply) : Nat → Option HostInfo :=
  reply.RawEntries.foldl
    (fun m entry => fun k => if k = entry.IfID then some entry.hostInfo else m k)
    (fun _ => none)

/-- `(c PathErrorCode) String()` (PathErrorCode is `uint16`). -/
def PathErrorCodeString (c : Nat) : String :=
  if c = 0 then "OK"
  else if c = 1 then "No paths available"
  else if c = 2 then "SCIOND timed out while requesting paths"
  else if c = 3 then "SCIOND experienced an internal error"
  else "Unknown error (" ++ toString c ++ ")"

/-- `(c RevResult) String()` (RevResult is `uint16`). -/
def RevResultString (c : Nat) : String :=
  if c = 0 then "RevValid"
  else if c = 1 then "RevStale"
  else if c = 2 then "RevInvalid"
  else if c = 3 then "RevUnknown"
  else "Unknown revocation result (" ++ toString c ++ ")"

/-- `(st ServiceType) String()` (ServiceType is `uint16`). -/
def ServiceTypeString (st : Nat) : String :=
  if st = 0 then "BS"
  else if st = 1 then "PS"
  else if st = 2 then "CS"
  else if st = 3 then "BR"
  else if st = 4 then "SB"
  else "??"

/-! ## Signed envelope (go/proto, `SignS` / `SignedBlobS`) -/

/-- `proto.SignType_none` (capnp enum value 0). -/
def SignType_none : Nat := 0
/-- `proto.SignType_ed25519` (capnp enum value 1). -/
def SignType_ed25519 : Nat := 1

/-- Modelled from the spec: the capnp-generated `SignType.String()` is not in
the sources; the spec gives the closed set of canonical scheme strings
("none", "ed25519").  Strings are rendered as their byte values. -/
def SignTypeStr (t : Nat) : RawBytes :=
  if t = SignType_none then [110, 111, 110, 101]
  else if t = SignType_ed25519 then [101, 100, 50, 53, 53, 49, 57]
  else []

/-- Errors surfaced by the envelope: `common.NewBasicError(msg, nil, "type", t)`
plus an arbitrary error bubbled up from the external crypto package. -/
inductive CtrlError where
  | basicError (msg : String) (typ : Nat)
  | cryptoFailure (code : Nat)
deriving DecidableEq

/-- `SignS`: timestamp (`uint64`), scheme tag (`Type`, a capnp `SignType`),
source descriptor bytes and signature bytes. -/
structure SignS where
  Timestamp : Nat
  Typ : Nat
  Src : RawBytes
  Signature : RawBytes
deriving DecidableEq

/-- The shape of `crypto.Sign(message, key, crypto.Ed25519)` (external
package): from message and key it produces the Go pair `(RawBytes, error)`. -/
abbrev CryptoSign := RawBytes → RawBytes → RawBytes × Option CtrlError

/-- The shape of `crypto.Verify(message, sig, key, crypto.Ed25519)` (external
package): from message, signature and key it produces the Go `error`. -/
abbrev CryptoVerify := RawBytes → RawBytes → RawBytes → Option CtrlError

/-- `(s *SignS) Sign(key, message)`: a switch on `s.Type`; `none` returns
`(nil, nil)`, `ed25519` returns `crypto.Sign(message, key, Ed25519)`, and
the default arm returns the `Unsupported SignType` error.  The body assigns
no field of `s`, so the post-state (first component) is `s` in every arm. -/
def SignS.sign (cs : CryptoSign) (s : SignS) (key message : RawBytes) :
    SignS × (RawBytes × Option CtrlError) :=
  if s.Typ = SignType_none then (s, ([], none))
  else if s.Typ = SignType_ed25519 then (s, cs message key)
  else (s, ([], some (CtrlError.basicError "SignS.Sign: Unsupported SignType" s.Typ)))

/-- `(s *SignS) Verify(key, message)`: a switch on `s.Type`; `none` returns
`nil`, `ed25519` returns `crypto.Verify(message, s.Signature, key, Ed25519)`,
and the default arm returns the `Unsupported SignType` error.  The body
assigns no field of `s`. -/
def SignS.verify (cv : CryptoVerify) (s : SignS) (key message : RawBytes) :
    SignS × Option CtrlError :=
  if s.Typ = SignType_none then (s, none)
  else if s.Typ = SignType_ed25519 then (s, cv message s.Signature key)
  else (s, some (CtrlError.basicError "SignS.Verify: Unsupported SignType" s.Typ))

/-- `(s *SignS) SignAndSet(key, message)`:
`s.Timestamp = uint64(time.Now().Unix())` (the current time `now` is a
parameter of the embedding), then the Go pair assignment
`s.Signature, err = s.Sign(key, message)` — which stores the first component
of `Sign`'s result in `s.Signature` whether or not `err` is nil — and
returns `err`. -/
def SignS.signAndSet (cs : CryptoSign) (now : Nat) (s : SignS)
    (key message : RawBytes) : SignS × Option CtrlError :=
  let s1 : SignS := { s with Timestamp := now % 2 ^ 64 }
  let r := SignS.sign cs s1 key message
  ({ r.1 with Signature := r.2.1 }, r.2.2)

/-- `common.Order.PutUint64(raw, v)` on the fresh 8-byte buffer
`make(common.RawBytes, 8)`: `binary.BigEndian.PutUint64` assigns
`raw[0] = byte(v >> 56)`, ..., `raw[7] = byte(v)`; `byte(x)` is `x % 256`. -/
def putUint64BE (v : Nat) : RawBytes :=
  (((((((([0, 0, 0, 0, 0, 0, 0, 0] : RawBytes).set 0 (v >>> 56 % 256)).set 1
    (v >>> 48 % 256)).set 2 (v >>> 40 % 256)).set 3 (v >>> 32 % 256)).set 4
    (v >>> 24 % 256)).set 5 (v >>> 16 % 256)).set 6 (v >>> 8 % 256)).set 7 (v % 256)

/-- `(s *SignS) Pack()`: `raw := make(RawBytes, 8); Order.PutUint64(raw,
s.Timestamp); raw = append(raw, s.Type.String()...); raw = append(raw,
s.Src...); raw = append(raw, s.Signature...)`. -/
def SignS.pack (s : SignS) : RawBytes :=
  let raw := putUint64BE s.Timestamp
  let raw := raw ++ SignTypeStr s.Typ
  let raw := raw ++ s.Src
  raw ++ s.Signature

/-- `SignedBlobS`: opaque blob plus its (non-nil) `SignS`. -/
structure SignedBlobS where
  Blob : RawBytes
  Sign : SignS
deriving DecidableEq

/-- `(sbs *SignedBlobS) Pack()`: `var raw RawBytes; raw = append(raw,
sbs.Blob...); raw = append(raw, sbs.Sign.Pack()...)`. -/
def SignedBlobS.pack (sbs : SignedBlobS) : RawBytes :=
  let raw : RawBytes := []
  let raw := raw ++ sbs.Blob
  raw ++ sbs.Sign.pack

/-- `(sbs *SignedBlobS) String()` formats `sbs.Blob[:20]` and `sbs.Sign`.
The slice expression `sbs.Blob[:20]` is out of range (Go panics) when the
blob is shorter than 20 bytes; the panic is modelled as `none`, and the
in-range branch returns the two formatted components. -/
def SignedBlobS.string (sbs : SignedBlobS) : Option (RawBytes × SignS) :=
  if 20 ≤ sbs.Blob.length then some (sbs.Blob.take 20, sbs.Sign) else none

/-- The mathematical 8-byte big-endian encoding of `v`: byte `i` (from the
most significant end) is `v / 2 ^ (8 * (7 - i)) % 256`. -/
def beBytes8 (v : Nat) : RawBytes :=
  [v / 2 ^ 56 % 256, v / 2 ^ 48 % 256, v / 2 ^ 40 % 256, v / 2 ^ 32 % 256,
   v / 2 ^ 24 % 256, v / 2 ^ 16 % 256, v / 2 ^ 8 % 256, v % 256]

/-- Big-endian decoding: fold the byte list most-significant first. -/
def beDecode (bytes : RawBytes) : Nat :=
  bytes.foldl (fun acc b => acc * 256 + b) 0

/-! ## Theorems -/

/-- C1: the claim says `FillPadding` zero-fills exactly `[length, length+padding)`
and leaves bytes before `length` unchanged.  The loop `for i := range
b[length:total] { b[i] = 0 }` instead zeroes `b[0], ..., b[padding-1]`: on
the buffer `[1, 2, 3]` with `length = 1`, `blkSize = 2` (padding 1, total 2)
the code produces `[0, 2, 3]` — the byte before `length` is destroyed and the
padding position `b[1]` keeps its old value `2` — where the claim requires
`[1, 0, 3]`.  The returned total `2` is as specified. -/
theorem FillPadding_zeroes_prefix_not_padding :
    FillPadding [1, 2, 3] 1 2 = some ([0, 2, 3], 2) ∧
    ([0, 2, 3] : RawBytes) ≠ [1, 0, 3] := by
  constructor <;> decide

/-- C3 counterexample: the claim says `HostInfoFromHostAddr` fails with
UnsupportedAddressFamily for an address that is neither IPv4 nor IPv6.  The
function has no error result at all: applied to an SVC-family address it
succeeds and stores the bytes in the IPv6 slot. -/
theorem HostInfoFromHostAddr_svc_succeeds :
    HostInfoFromHostAddr ⟨HostTypeSVC, [10, 20]⟩ 5 =
      { Port := 5, Ipv4 := [], Ipv6 := [10, 20] } := by
  decide

/-- C3 amended: for IPv4 addresses the bytes go to the IPv4 slot leaving the
IPv6 slot empty; for EVERY other address family (IPv6, but also SVC or none)
construction succeeds — there is no failure path — and the bytes go to the
IPv6 slot leaving the IPv4 slot empty; the port is stored as given. -/
theorem HostInfoFromHostAddr_branches (host : HostAddr) (port : Nat) :
    (host.typ = HostTypeIPv4 →
      HostInfoFromHostAddr host port =
        { Port := port, Ipv4 := host.ip, Ipv6 := [] }) ∧
    (host.typ ≠ HostTypeIPv4 →
      HostInfoFromHostAddr host port =
        { Port := port, Ipv4 := [], Ipv6 := host.ip }) := by
  constructor <;> intro h <;> simp [HostInfoFromHostAddr, h]

/-- C3 witness: the amended theorem applied to a concrete IPv4 address. -/
theorem HostInfoFromHostAddr_branches_witness :
    HostInfoFromHostAddr ⟨HostTypeIPv4, [127, 0, 0, 1]⟩ 80 =
      { Port := 80, Ipv4 := [127, 0, 0, 1], Ipv6 := [] } :=
  (HostInfoFromHostAddr_branches ⟨HostTypeIPv4, [127, 0, 0, 1]⟩ 80).1 rfl

/-- C5: for a scheme tag that is neither `none` nor `ed25519`, `Sign` and
`Verify` both fail with the `Unsupported SignType` error, whatever the key,
message and crypto primitives are, and the post-state of the receiver is
exactly the input `SignS` (no field mutated). -/
theorem sign_verify_unsupported (cs : CryptoSign) (cv : CryptoVerify)
    (s : SignS) (key message : RawBytes)
    (h0 : s.Typ ≠ SignType_none) (h1 : s.Typ ≠ SignType_ed25519) :
    SignS.sign cs s key message =
      (s, ([], some (CtrlError.basicError "SignS.Sign: Unsupported SignType" s.Typ))) ∧
    SignS.verify cv s key message =
      (s, some (CtrlError.basicError "SignS.Verify: Unsupported SignType" s.Typ)) := by
  constructor <;> simp [SignS.sign, SignS.verify, h0, h1]

/-- C5 witness: the theorem applied at scheme tag 2 with trivial crypto
primitives. -/
theorem sign_verify_unsupported_witness :
    SignS.sign (fun _ _ => ([], none)) ⟨0, 2, [], []⟩ [] [] =
      (⟨0, 2, [], []⟩,
        ([], some (CtrlError.basicError "SignS.Sign: Unsupported SignType" 2))) ∧
    SignS.verify (fun _ _ _ => none) ⟨0, 2, [], []⟩ [] [] =
      (⟨0, 2, [], []⟩,
        some (CtrlError.basicError "SignS.Verify: Unsupported SignType" 2)) :=
  sign_verify_unsupported (fun _ _ => ([], none)) (fun _ _ _ => none)
    ⟨0, 2, [], []⟩ [] [] (by decide) (by decide)

/-- C6: for scheme tag `none`, `Sign` succeeds with an empty (nil) signature
and `Verify` succeeds, whatever the key, the message, the stored signature
bytes and the crypto primitives are; neither call mutates the receiver. -/
theorem sign_verify_none_scheme (cs : CryptoSign) (cv : CryptoVerify)
    (s : SignS) (key message : RawBytes) (h : s.Typ = SignType_none) :
    SignS.sign cs s key message = (s, ([], none)) ∧
    SignS.verify cv s key message = (s, none) := by
  constructor <;> simp [SignS.sign, SignS.verify, h]

/-- C6 witness: the theorem applied to a `none`-scheme instance that carries
a non-empty stored signature, with a non-trivial key and message. -/
theorem sign_verify_none_scheme_witness :
    SignS.sign (fun _ _ => ([], none)) ⟨5, 0, [1], [9, 9]⟩ [3] [4] =
      (⟨5, 0, [1], [9, 9]⟩, ([], none)) ∧
    SignS.verify (fun _ _ _ => none) ⟨5, 0, [1], [9, 9]⟩ [3] [4] =
      (⟨5, 0, [1], [9, 9]⟩, none) :=
  sign_verify_none_scheme (fun _ _ => ([], none)) (fun _ _ _ => none)
    ⟨5, 0, [1], [9, 9]⟩ [3] [4] rfl

/-- C8 counterexample: the claim says every out-of-range value of
PathErrorCode, RevResult AND ServiceType renders via a fallback string
containing the raw numeric value.  `ServiceType.String` renders every
unknown value as the fixed string `??`, which contains no digit at all —
in particular the rendering of service type 5 does not contain `5`. -/
theorem ServiceTypeString_fallback_lacks_value :
    ServiceTypeString 5 = "??" ∧
    ((ServiceTypeString 5).data.all fun c => ! c.isDigit) = true := by
  constructor <;> decide

/-- C8 amended: unknown values of all three enums still render (construction
of the numeric value never fails and `String` is total); PathErrorCode and
RevResult render unknown values via fallback strings carrying the raw
numeric value, while ServiceType renders every unknown value as the fixed
string `??` without the numeric value; known values render with their fixed
descriptions. -/
theorem enum_string_fallbacks (c : Nat) (h4 : 4 ≤ c) (hw : c < 2 ^ 16) :
    PathErrorCodeString c = "Unknown error (" ++ toString c ++ ")" ∧
    RevResultString c = "Unknown revocation result (" ++ toString c ++ ")" ∧
    (5 ≤ c → ServiceTypeString c = "??") ∧
    PathErrorCodeString 0 = "OK" ∧
    PathErrorCodeString 1 = "No paths available" ∧
    PathErrorCodeString 2 = "SCIOND timed out while requesting paths" ∧
    PathErrorCodeString 3 = "SCIOND experienced an internal error" ∧
    RevResultString 0 = "RevValid" ∧
    RevResultString 1 = "RevStale" ∧
    RevResultString 2 = "RevInvalid" ∧
    RevResultString 3 = "RevUnknown" ∧
    ServiceTypeString 0 = "BS" ∧
    ServiceTypeString 1 = "PS" ∧
    ServiceTypeString 2 = "CS" ∧
    ServiceTypeString 3 = "BR" ∧
    ServiceTypeString 4 = "SB" := by
  have h0 : c ≠ 0 := by omega
  have h1 : c ≠ 1 := by omega
  have h2 : c ≠ 2 := by omega
  have h3 : c ≠ 3 := by omega
  refine ⟨by simp [PathErrorCodeString, h0, h1, h2, h3],
    by simp [RevResultString, h0, h1, h2, h3],
    fun h5 => ?_,
    by decide, by decide, by decide, by decide, by decide, by decide,
    by decide, by decide, by decide, by decide, by decide, by decide,
    by decide⟩
  have h4' : c ≠ 4 := by omega
  simp [ServiceTypeString, h0, h1, h2, h3, h4']

/-- C8 witness: the amended theorem applied at the out-of-range value 7. -/
theorem enum_string_fallbacks_witness :
    PathErrorCodeString 7 = "Unknown error (" ++ toString 7 ++ ")" ∧
    RevResultString 7 = "Unknown revocation result (" ++ toString 7 ++ ")" ∧
    ServiceTypeString 7 = "??" :=
  ⟨(enum_string_fallbacks 7 (by decide) (by decide)).1,
   (enum_string_fallbacks 7 (by decide) (by decide)).2.1,
   (enum_string_fallbacks 7 (by decide) (by decide)).2.2.1 (by decide)⟩

/-- C10: `SignedBlobS.String` slices `Blob[:20]`, so the rendering is
defined exactly when the blob is at least 20 bytes long; for every shorter
blob the out-of-range (panic) branch is taken. -/
theorem SignedBlobS_string_partiality (sbs : SignedBlobS) :
    SignedBlobS.string sbs = none ↔ sbs.Blob.length < 20 := by
  unfold SignedBlobS.string
  split <;> rename_i h <;> simp <;> omega

/-- C2: `CalcPadding` under `0 ≤ length`, `0 < blkSize`: it equals
`blkSize - length % blkSize` when the remainder is non-zero and `0`
otherwise, lies in `[0, blkSize)`, and `length + CalcPadding` is the
smallest multiple of `blkSize` that is `≥ length`. -/
theorem CalcPadding_spec (length blkSize : Int)
    (hl : 0 ≤ length) (hb : 0 < blkSize) :
    CalcPadding length blkSize =
      (if length % blkSize ≠ 0 then blkSize - length % blkSize else 0) ∧
    0 ≤ CalcPadding length blkSize ∧
    CalcPadding length blkSize < blkSize ∧
    (length + CalcPadding length blkSize) % blkSize = 0 ∧
    length ≤ length + CalcPadding length blkSize ∧
    ∀ m : Int, length ≤ m → m % blkSize = 0 →
      length + CalcPadding length blkSize ≤ m := by
  have htm : Int.tmod length blkSize = length % blkSize :=
    Int.tmod_eq_emod hl (le_of_lt hb)
  have hcp : CalcPadding length blkSize =
      (if length % blkSize ≠ 0 then blkSize - length % blkSize else 0) := by
    simp only [CalcPadding, htm]
  have hr0 : 0 ≤ length % blkSize := Int.emod_nonneg length (ne_of_gt hb)
  have hrlt : length % blkSize < blkSize := Int.emod_lt_of_pos length hb
  have hdecomp : length % blkSize + blkSize * (length / blkSize) = length :=
    Int.emod_add_ediv length blkSize
  have hsum : length + (blkSize - length % blkSize)
      = blkSize * (length / blkSize + 1) := by
    linear_combination -hdecomp
  refine ⟨hcp, ?_, ?_, ?_, ?_, ?_⟩
  · rw [hcp]; split <;> linarith
  · rw [hcp]; split
    · rename_i h
      have : 0 < length % blkSize := lt_of_le_of_ne hr0 (Ne.symm h)
      linarith
    · exact hb
  · rw [hcp]; split
    · rw [hsum]; exact Int.mul_emod_right blkSize (length / blkSize + 1)
    · rename_i h
      push_neg at h
      simp [h]
  · rw [hcp]; split <;> linarith
  · intro m hlm hm0
    rw [hcp]; split
    · rename_i h
      have hrpos : 0 < length % blkSize := lt_of_le_of_ne hr0 (Ne.symm h)
      by_contra hcon
      push_neg at hcon
      have hd1 : blkSize ∣ m := Int.dvd_of_emod_eq_zero hm0
      have hd2 : blkSize ∣ length + (blkSize - length % blkSize) :=
        ⟨length / blkSize + 1, hsum⟩
      have hd3 : blkSize ∣ length + (blkSize - length % blkSize) - m :=
        dvd_sub hd2 hd1
      have hpos : 0 < length + (blkSize - length % blkSize) - m := by linarith
      have hge : blkSize ≤ length + (blkSize - length % blkSize) - m :=
        Int.le_of_dvd hpos hd3
      linarith
    · linarith

/-- C2 witness: the theorem applied at `length = 5`, `blkSize = 3`. -/
theorem CalcPadding_spec_witness :
    CalcPadding 5 3 = (if (5 : Int) % 3 ≠ 0 then 3 - (5 : Int) % 3 else 0) ∧
    0 ≤ CalcPadding 5 3 ∧
    CalcPadding 5 3 < 3 ∧
    (5 + CalcPadding 5 3) % 3 = 0 ∧
    (5 : Int) ≤ 5 + CalcPadding 5 3 ∧
    ∀ m : Int, 5 ≤ m → m % 3 = 0 → 5 + CalcPadding 5 3 ≤ m :=
  CalcPadding_spec 5 3 (by decide) (by decide)

/-- The post-state of `SignS.sign` is the unchanged receiver in every arm of
the scheme switch. -/
theorem sign_fst (cs : CryptoSign) (s : SignS) (key message : RawBytes) :
    (SignS.sign cs s key message).1 = s := by
  unfold SignS.sign
  split
  · rfl
  · split <;> rfl

/-- C9: `SignAndSet` stores the (truncated-to-64-bit) current time in the
timestamp field unconditionally — in particular also when `Sign` fails —
then performs the Go pair assignment `s.Signature, err = s.Sign(key,
message)`: it fails exactly when `Sign` (on the timestamp-updated instance)
fails, and the signature field always receives the byte component of
`Sign`'s result (nil/empty on failure, the signature on success). -/
theorem signAndSet_spec (cs : CryptoSign) (now : Nat) (s : SignS)
    (key message : RawBytes) :
    (SignS.signAndSet cs now s key message).1.Timestamp = now % 2 ^ 64 ∧
    ((SignS.signAndSet cs now s key message).2 = none ↔
      (SignS.sign cs { s with Timestamp := now % 2 ^ 64 } key message).2.2 = none) ∧
    (SignS.signAndSet cs now s key message).1.Signature =
      (SignS.sign cs { s with Timestamp := now % 2 ^ 64 } key message).2.1 := by
  refine ⟨?_, Iff.rfl, rfl⟩
  show (SignS.sign cs { s with Timestamp := now % 2 ^ 64 } key message).1.Timestamp
    = now % 2 ^ 64
  rw [sign_fst]

/-- C9 witness: `SignAndSet` at time 100 on an unsupported-scheme instance:
the sign step fails, yet the timestamp is 100 and the signature is nil. -/
theorem signAndSet_spec_witness :
    (SignS.signAndSet (fun _ _ => ([], none)) 100 ⟨0, 2, [], [7]⟩ [] []).1.Timestamp
      = 100 % 2 ^ 64 ∧
    ((SignS.signAndSet (fun _ _ => ([], none)) 100 ⟨0, 2, [], [7]⟩ [] []).2 = none ↔
      (SignS.sign (fun _ _ => ([], none))
        { Timestamp := 100 % 2 ^ 64, Typ := 2, Src := [], Signature := [7] }
        [] []).2.2 = none) ∧
    (SignS.signAndSet (fun _ _ => ([], none)) 100 ⟨0, 2, [], [7]⟩ [] []).1.Signature =
      (SignS.sign (fun _ _ => ([], none))
        { Timestamp := 100 % 2 ^ 64, Typ := 2, Src := [], Signature := [7] }
        [] []).2.1 :=
  signAndSet_spec (fun _ _ => ([], none)) 100 ⟨0, 2, [], [7]⟩ [] []

/-- Evaluating the map built by the `Entries` fold: the value at key `k` is
the host info of the LAST entry with interface id `k` (found as the first
match in the reversed list), falling back to the initial map. -/
theorem entries_foldl_eq (l : List IFInfoReplyEntry)
    (init : Nat → Option HostInfo) (k : Nat) :
    (l.foldl
      (fun m entry => fun j => if j = entry.IfID then some entry.hostInfo else m j)
      init) k =
    (match l.reverse.find? (fun e => e.IfID == k) with
      | some e => some e.hostInfo
      | none => init k) := by
  induction l generalizing init with
  | nil => rfl
  | cons e t ih =>
    simp only [List.foldl_cons, List.reverse_cons, List.find?_append]
    rw [ih]
    cases hfind : t.reverse.find? (fun x => x.IfID == k) with
    | some x => simp [Option.or]
    | none =>
      simp only [Option.or]
      by_cases hk : e.IfID = k
      · simp [List.find?, hk]
      · have hb : (e.IfID == k) = false := by simp [hk]
        have hk' : k ≠ e.IfID := fun hkk => hk hkk.symm
        simp [List.find?, hb, hk']

/-- C4: the mapping `Entries` rebuilds from the ordered entry list sends
every key to the host info of the last entry carrying that interface id
(last-write-wins), so every interface id present in the entries is mapped
to some host info; in particular for a reply whose two entries share
interface id 7 with different host infos, the map at 7 holds the later
entry's host info. -/
theorem IFInfoReply_Entries_spec :
    (∀ (reply : IFInfoReply) (k : Nat),
      IFInfoReply.Entries reply k =
        (reply.RawEntries.reverse.find? (fun e => e.IfID == k)).map
          (fun e => e.hostInfo)) ∧
    (∀ (reply : IFInfoReply) (k : Nat) (e : IFInfoReplyEntry),
      e ∈ reply.RawEntries → e.IfID = k →
        ∃ hi, IFInfoReply.Entries reply k = some hi) ∧
    (∀ h1 h2 : HostInfo,
      IFInfoReply.Entries ⟨[⟨7, h1⟩, ⟨7, h2⟩]⟩ 7 = some h2) := by
  have hmain : ∀ (reply : IFInfoReply) (k : Nat),
      IFInfoReply.Entries reply k =
        (reply.RawEntries.reverse.find? (fun e => e.IfID == k)).map
          (fun e => e.hostInfo) := by
    intro reply k
    unfold IFInfoReply.Entries
    rw [entries_foldl_eq]
    cases reply.RawEntries.reverse.find? (fun e => e.IfID == k) <;> simp
  refine ⟨hmain, ?_, ?_⟩
  · intro reply k e hmem hid
    rw [hmain]
    cases hfx : reply.RawEntries.reverse.find? (fun x => x.IfID == k) with
    | none =>
      exfalso
      have hnone := List.find?_eq_none.mp hfx e (List.mem_reverse.mpr hmem)
      simp [hid] at hnone
    | some x => exact ⟨x.hostInfo, by simp⟩
  · intro h1 h2
    rw [hmain]
    simp [List.find?]

/-- C4 witness: an interface id present in a singleton entry list is mapped
to some host info. -/
theorem IFInfoReply_Entries_spec_witness :
    ∃ hi, IFInfoReply.Entries ⟨[⟨7, ⟨80, [127, 0, 0, 1], []⟩⟩]⟩ 7 = some hi :=
  IFInfoReply_Entries_spec.2.1 ⟨[⟨7, ⟨80, [127, 0, 0, 1], []⟩⟩]⟩ 7
    ⟨7, ⟨80, [127, 0, 0, 1], []⟩⟩ (by simp) rfl

/-- `PutUint64` on the fresh 8-byte buffer produces exactly the 8-byte
big-endian encoding of the value. -/
theorem putUint64BE_eq (v : Nat) : putUint64BE v = beBytes8 v := by
  simp only [putUint64BE, beBytes8, Nat.shiftRight_eq_div_pow]
  rfl

/-- C7: `SignS.Pack` is exactly the concatenation, in order, of the 8-byte
big-endian timestamp encoding, the canonical scheme string bytes, the
source descriptor bytes and the signature bytes; `SignedBlobS.Pack` is
exactly the blob bytes followed by the contained `SignS`'s pack output; and
the leading 8 bytes indeed big-endian-decode back to the timestamp
(mod `2 ^ 64`). -/
theorem pack_concat :
    (∀ s : SignS, SignS.pack s =
      beBytes8 s.Timestamp ++ SignTypeStr s.Typ ++ s.Src ++ s.Signature) ∧
    (∀ sbs : SignedBlobS,
      SignedBlobS.pack sbs = sbs.Blob ++ SignS.pack sbs.Sign) ∧
    (∀ v : Nat, beDecode (beBytes8 v) = v % 2 ^ 64) := by
  refine ⟨?_, ?_, ?_⟩
  · intro s
    simp [SignS.pack, putUint64BE_eq]
  · intro sbs
    simp [SignedBlobS.pack]
  · intro v
    simp only [beDecode, beBytes8, List.foldl]
    norm_num
    omega
